import Mathlib

/-!
Verification of the Mermaid MCP server core (`server/tools/mermaid_tools.py`,
`server/resources/diagram_resources.py`).

The Python functions are shallowly embedded as pure Lean functions.  External
effects (environment variables, the filesystem, the `mmdc` subprocess) are
supplied through explicit oracle structures (`Env`, `World`, `FsWorld`): each
fallible operation's outcome is a field of the oracle, and the embedding
consumes it exactly where the Python code performs the operation.  A Python
exception that escapes the function is modelled as `Except.error`; a structured
return value is `Except.ok`.

The module-global dict `attempt_tracker` is modelled as an association list
threaded in and out of `generate_mermaid_diagram`.
-/

set_option autoImplicit false

namespace MermaidMCP

/-- Python dict `attempt_tracker : Dict[str, int]`, as an association list.
All operations keep keys unique (insertion replaces). -/
abbrev Tracker := List (String × Nat)

/-- `attempt_tracker.get(k, 0)`. -/
def Tracker.get : Tracker → String → Nat
  | [], _ => 0
  | p :: t, k => if p.1 = k then p.2 else Tracker.get t k

/-- Lookup without default: `attempt_tracker[k]` succeeds iff this is `some`. -/
def Tracker.get? : Tracker → String → Option Nat
  | [], _ => none
  | p :: t, k => if p.1 = k then some p.2 else Tracker.get? t k

/-- `attempt_tracker.pop(k, None)` (the returned value is unused in the source):
removes every binding of `k`. -/
def Tracker.pop : Tracker → String → Tracker
  | [], _ => []
  | p :: t, k => if p.1 = k then Tracker.pop t k else p :: Tracker.pop t k

/-- `attempt_tracker[k] = v`, as erase-then-prepend (observationally the same
mapping as the Python dict update). -/
def Tracker.set (t : Tracker) (k : String) (v : Nat) : Tracker :=
  (k, v) :: Tracker.pop t k

/-- The `mermaid` section of the YAML config consumed by `get_config()`. -/
structure MermaidConfig where
  max_retry_attempts : Nat := 5
  output_dir : String := "/app/data/diagrams"
  max_diagram_size : Nat := 50000
  default_format : String := "svg"
  default_theme : String := "default"
  default_background : String := "white"
  deriving DecidableEq, Repr

/-- Environment variables read via `os.getenv` (value already parsed where the
source applies `int(...)`). -/
structure Env where
  mermaid_max_retries : Option Nat := none
  mermaid_output_dir : Option String := none
  public_base_url : Option String := none
  auth_token : Option String := none
  deriving DecidableEq, Repr

/-- Outcome of `subprocess.run(cmd, capture_output=True, text=True, timeout=30)`:
normal completion with exit code and captured streams, `TimeoutExpired`, or any
other exception. -/
inductive SubprocOutcome where
  | completed (returncode : Int) (stdoutText stderrText : String)
  | timedOut
  | raised (msg : String)
  deriving DecidableEq, Repr

deriving instance DecidableEq for Except

/-- Oracle for the effectful operations of one `generate_mermaid_diagram` call.
`some msg` in a `...Result` field means the operation raises with message `msg`. -/
structure World where
  mkdirResult : Option String := none
  writeScratchResult : Option String := none
  subproc : SubprocOutcome := SubprocOutcome.timedOut
  getsizeResult : Except String Nat := Except.ok 0
  time_now : Nat := 0
  removeRaises : Bool := false
  deriving DecidableEq, Repr

/-- A JSON-style response dict.  Optional fields model key presence: `none`
means the Python dict has no such key.  The budget-exhausted response uses the
key `"attempts"` (plural), all other counted responses use `"attempt"`. -/
structure Response where
  success : Bool := false
  error : Option String := none
  suggestion : Option String := none
  attempt : Option Nat := none
  attempts : Option Nat := none
  max_attempts : Option Nat := none
  prompt : Option String := none
  message : Option String := none
  image_url : Option String := none
  file_name : Option String := none
  format : Option String := none
  size_bytes : Option Nat := none
  deriving DecidableEq, Repr

/-- Full observable outcome of one `generate_mermaid_diagram` call: the returned
value (or escaped exception), the final tracker, and the scratch-file trace.
`scratchRemoveAttempted` records whether `os.remove(input_file)` was reached;
`scratchStillExists` whether `/tmp/mermaid_<hash>.mmd` remains afterwards. -/
structure GenResult where
  resp : Except String Response
  tracker : Tracker
  scratchWritten : Bool := false
  scratchRemoveAttempted : Bool := false
  scratchStillExists : Bool := false
  cmd : Option (List String) := none
  deriving DecidableEq, Repr

/-- The response when the call returned one, else a default record. -/
def GenResult.respD (g : GenResult) : Response :=
  (g.resp.toOption).getD {}

/-!
String helpers.  The Lean core versions (`String.trim`, `String.splitOn`,
`String.toLower`, ...) are defined through well-founded recursion on byte
positions and do not reduce inside the kernel, so the Python string operations
are embedded as structurally recursive functions on `String.data` instead
(`str.strip`/`str.lower`/`str.upper` are applied to ASCII text here, where the
Lean `Char` functions agree with Python). -/

/-- Python `str.strip()`: drop leading and trailing whitespace. -/
def pyStrip (s : String) : String :=
  String.mk (((s.data.dropWhile Char.isWhitespace).reverse.dropWhile
    Char.isWhitespace).reverse)

/-- Python `str.lower()`. -/
def pyLower (s : String) : String :=
  String.mk (s.data.map Char.toLower)

/-- Python `str.upper()`. -/
def pyUpper (s : String) : String :=
  String.mk (s.data.map Char.toUpper)

/-- Whether `pat` is a prefix of `l`. -/
def listPrefixOf : List Char → List Char → Bool
  | [], _ => true
  | _ :: _, [] => false
  | p :: ps, c :: cs => p = c && listPrefixOf ps cs

/-- Python `s.startswith(pat)`. -/
def pyStartsWith (s pat : String) : Bool :=
  listPrefixOf pat.data s.data

/-- Whether `pat` occurs as a contiguous sublist of the first argument. -/
def listHasSub : List Char → List Char → Bool
  | [], pat => pat.isEmpty
  | c :: cs, pat => listPrefixOf pat (c :: cs) || listHasSub cs pat

/-- Python `pat in s` (substring containment). -/
def hasSub (s pat : String) : Bool :=
  listHasSub s.data pat.data

/-- Split a character list at every occurrence of `sep`. -/
def splitOnChar (sep : Char) : List Char → List (List Char)
  | [] => [[]]
  | c :: rest =>
      match splitOnChar sep rest with
      | [] => [[c]]
      | h :: t => if c = sep then [] :: h :: t else (c :: h) :: t

/-- Python `s.split('\n')`. -/
def pySplitLines (s : String) : List String :=
  (splitOnChar '\n' s.data).map String.mk

/-- `Path(p).name`: the part after the last path separator. -/
def basename (p : String) : String :=
  ((splitOnChar '/' p.data).map String.mk).getLastD p

/-- `parse_mermaid_error` from `mermaid_tools.py`: ordered case-insensitive
keyword classification of a raw `mmdc` error message. -/
def parse_mermaid_error (error_msg : String) : String :=
  let error_lower := pyLower error_msg
  if hasSub error_lower "syntax error" then
    "Syntax error detected. Check for: missing semicolons, incorrect arrow syntax (use --> or ---), mismatched brackets."
  else if hasSub error_lower "parse error" then
    "Parse error. Verify diagram type declaration (graph TD, sequenceDiagram, etc.) and node connections."
  else if hasSub error_lower "unexpected" then
    "Unexpected token found. Check for typos in keywords or special characters."
  else if hasSub error_lower "timeout" then
    "Rendering timed out. Diagram might be too complex - try simplifying."
  else
    "Check Mermaid syntax at: https://mermaid.js.org/syntax/"

/-- `generate_mermaid_diagram` from `mermaid_tools.py`.  `md5hex12` abstracts
`hashlib.md5(code.encode()).hexdigest()[:12]` (an external library digest); the
embedding is parametric in it.  The branches follow the source line by line:
validation, ledger check/increment, `mkdir` (not guarded by any `try`), scratch
write, `mmdc` invocation, outcome classification, cleanup.  `os.remove` is only
reached when `subprocess.run` returns normally (both exit-code branches); its
own failure is swallowed by the inner bare `except`.  On the success path the
ledger entry is popped before `os.path.getsize`; if `getsize` raises, the
`except Exception` handler evaluates `attempt_tracker[code_hash]` on the popped
key and the resulting `KeyError` escapes the function. -/
def generate_mermaid_diagram (md5hex12 : String → String) (cfg : MermaidConfig)
    (env : Env) (w : World) (t : Tracker) (mermaid_code : String)
    (output_format : String) (filename : String) (theme : String)
    (background : String) (scale : Int) (width : Int) : GenResult :=
  let max_attempts := env.mermaid_max_retries.getD cfg.max_retry_attempts
  let output_dir := env.mermaid_output_dir.getD cfg.output_dir
  let max_size := cfg.max_diagram_size
  let output_format := if output_format = "" then cfg.default_format else output_format
  let theme := if theme = "" then cfg.default_theme else theme
  let background := if background = "" then cfg.default_background else background
  if pyStrip mermaid_code = "" then
    { resp := Except.ok
        { success := false,
          error := some "mermaid_code is empty - please provide Mermaid diagram syntax",
          suggestion := some "Example: graph TD\n    A[Start] --> B[End]" },
      tracker := t }
  else if mermaid_code.length > max_size then
    { resp := Except.ok
        { success := false,
          error := some ("Diagram code too large (" ++ toString mermaid_code.length
          ++ " chars, max " ++ toString max_size ++ ")"),
          suggestion := some "Simplify the diagram or split into multiple diagrams" },
      tracker := t }
  else
  let scale := if scale = 1 ∨ scale = 2 ∨ scale = 3 then scale else 2
  let width := if 800 ≤ width ∧ width ≤ 3200 then width else 1600
  if ¬ (output_format = "png" ∨ output_format = "svg" ∨ output_format = "pdf") then
    { resp := Except.ok
        { success := false,
          error := some ("Invalid output_format: " ++ output_format),
          suggestion := some "Use 'png', 'svg', or 'pdf'" },
      tracker := t }
  else
  let code_hash := md5hex12 mermaid_code
  let attempts := Tracker.get t code_hash
  if attempts ≥ max_attempts then
    { resp := Except.ok
        { success := false,
          error := some ("Maximum retry attempts (" ++ toString max_attempts ++ ") reached"),
          suggestion := some "Unable to generate diagram after multiple attempts. Please verify Mermaid syntax is correct or simplify the diagram.",
          attempts := some attempts,
          max_attempts := some max_attempts },
      tracker := Tracker.pop t code_hash }
  else
  let t1 := Tracker.set t code_hash (attempts + 1)
  match w.mkdirResult with
  | some exc => { resp := Except.error exc, tracker := t1 }
  | none =>
  let filename := if filename = "" then
      "diagram_" ++ code_hash ++ "_" ++ toString w.time_now
    else filename
  let input_file := "/tmp/mermaid_" ++ code_hash ++ ".mmd"
  let output_file := output_dir ++ "/" ++ filename ++ "." ++ output_format
  match w.writeScratchResult with
  | some exc =>
      { resp := Except.ok
          { success := false,
            error := some ("Failed to write temp file: " ++ exc),
            attempt := some (Tracker.get t1 code_hash),
            max_attempts := some max_attempts },
        tracker := t1 }
  | none =>
  let cmd := ["mmdc", "-i", input_file, "-o", output_file, "-t", theme, "-b", background]
      ++ (if output_format = "png" ∨ output_format = "pdf" then
            ["-s", toString scale, "-w", toString width] else [])
      ++ ["-p", "/tmp/puppeteer-config.json"]
  match w.subproc with
  | SubprocOutcome.timedOut =>
      { resp := Except.ok
          { success := false,
            error := some "Diagram generation timed out (30s limit)",
            suggestion := some "Diagram is too complex - try simplifying it",
            attempt := some (Tracker.get t1 code_hash),
            max_attempts := some max_attempts },
        tracker := t1, scratchWritten := true, scratchRemoveAttempted := false,
        scratchStillExists := true, cmd := some cmd }
  | SubprocOutcome.raised exc =>
      { resp := Except.ok
          { success := false,
            error := some ("Unexpected error: " ++ exc),
            attempt := some (Tracker.get t1 code_hash),
            max_attempts := some max_attempts },
        tracker := t1, scratchWritten := true, scratchRemoveAttempted := false,
        scratchStillExists := true, cmd := some cmd }
  | SubprocOutcome.completed returncode stdoutText stderrText =>
      if returncode ≠ 0 then
        let error_msg := if stderrText ≠ "" then stderrText
          else if stdoutText ≠ "" then stdoutText else "Unknown error"
        { resp := Except.ok
            { success := false,
              error := some error_msg,
              suggestion := some (parse_mermaid_error error_msg),
              attempt := some (Tracker.get t1 code_hash),
              max_attempts := some max_attempts,
              prompt := some ("Mermaid syntax error detected (attempt "
                ++ toString (Tracker.get t1 code_hash) ++ "/" ++ toString max_attempts
                ++ "). Please fix the errors and try again.") },
          tracker := t1, scratchWritten := true, scratchRemoveAttempted := true,
          scratchStillExists := w.removeRaises, cmd := some cmd }
      else
        let t2 := Tracker.pop t1 code_hash
        match w.getsizeResult with
        | Except.error _ =>
            { resp := Except.error ("KeyError: " ++ code_hash), tracker := t2,
              scratchWritten := true, scratchRemoveAttempted := true,
              scratchStillExists := w.removeRaises, cmd := some cmd }
        | Except.ok file_size =>
            let diagram_filename := basename output_file
            let base_url := env.public_base_url.getD "http://localhost:8401"
            let auth_token := env.auth_token.getD "avicohen"
            let image_url := base_url ++ "/diagrams/" ++ diagram_filename
              ++ "?token=" ++ auth_token
            { resp := Except.ok
                { success := true,
                  message := some ("✓ Generated " ++ pyUpper output_format
                    ++ " diagram (" ++ toString file_size ++ " bytes)"),
                  image_url := some image_url,
                  file_name := some diagram_filename,
                  format := some output_format,
                  size_bytes := some file_size },
              tracker := t2, scratchWritten := true, scratchRemoveAttempted := true,
              scratchStillExists := w.removeRaises, cmd := some cmd }

/-- Tracker state after `n` consecutive calls of `step`, starting from the
empty ledger (the module-level `attempt_tracker` at process start). -/
def iterT (step : Tracker → GenResult) : Nat → Tracker
  | 0 => []
  | n + 1 => (step (iterT step n)).tracker

/-- One `generate_mermaid_diagram` call as a function of the ledger only (all
other inputs held fixed across consecutive calls). -/
def genStep (md5hex12 : String → String) (cfg : MermaidConfig) (env : Env)
    (w : World) (code fmt fn th bg : String) (s wd : Int) :
    Tracker → GenResult :=
  fun tr => generate_mermaid_diagram md5hex12 cfg env w tr code fmt fn th bg s wd

/-- Environment with `MERMAID_MAX_RETRIES` set to `N`. -/
def envWithMax (N : Nat) (od pb au : Option String) : Env :=
  { mermaid_max_retries := some N, mermaid_output_dir := od,
    public_base_url := pb, auth_token := au }

/-- Oracle for a call whose directory creation and scratch write succeed and
whose `mmdc` subprocess completes with the given exit code and streams. -/
def completedWorld (rc : Int) (so se : String) (gs : Except String Nat)
    (tn : Nat) (rr : Bool) : World :=
  { mkdirResult := none, writeScratchResult := none,
    subproc := SubprocOutcome.completed rc so se, getsizeResult := gs,
    time_now := tn, removeRaises := rr }

/-- Python `s.count(c)` for a single character. -/
def countChar (s : String) (c : Char) : Nat :=
  s.toList.count c

/-- `detect_diagram_type` from `mermaid_tools.py`: case-insensitive prefix match
on the stripped source; returns `""` when nothing matches (Python falls through
to `return ""`). -/
def detect_diagram_type (code : String) : String :=
  let code_lower := pyLower (pyStrip code)
  if pyStartsWith code_lower "graph " || pyStartsWith code_lower "flowchart" then "flowchart"
  else if pyStartsWith code_lower "sequencediagram" then "sequenceDiagram"
  else if pyStartsWith code_lower "classdiagram" then "classDiagram"
  else if pyStartsWith code_lower "erdiagram" then "erDiagram"
  else if pyStartsWith code_lower "statediagram" then "stateDiagram"
  else if pyStartsWith code_lower "gantt" then "gantt"
  else if pyStartsWith code_lower "pie" then "pie"
  else if pyStartsWith code_lower "gitgraph" then "gitGraph"
  else ""

/-- Result dict of the syntax-validation tool.  Optional fields model key
presence (the empty-input early return carries only `valid`, `errors`,
`suggestion`; the main path adds `errors`/`warnings` keys only when the
corresponding lists are non-empty). -/
structure VResult where
  valid : Bool
  diagram_type : Option String := none
  node_count : Option Nat := none
  line_count : Option Nat := none
  errors : Option (List String) := none
  warnings : Option (List String) := none
  suggestion : Option String := none
  prompt : Option String := none
  deriving DecidableEq, Repr

/-- `validate_mermaid_syntax` from `mermaid_tools.py`: renderer-independent
structural check (type detection, line count, naive connection count, global
bracket balance across the three bracket kinds). -/
def validate_mermaid_syntax (mermaid_code : String) : VResult :=
  if pyStrip mermaid_code = "" then
    { valid := false,
      errors := some ["Empty diagram code"],
      suggestion := some "Provide Mermaid diagram syntax" }
  else
  let diagram_type := detect_diagram_type mermaid_code
  let errors0 : List String :=
    if diagram_type = "" then
      ["Unable to detect diagram type - must start with: graph, flowchart, sequenceDiagram, classDiagram, erDiagram, etc."]
    else []
  let lines := pySplitLines (pyStrip mermaid_code)
  let warnings0 : List String :=
    if lines.length < 2 then ["Diagram has only one line - might be incomplete"] else []
  let node_count := (lines.filter (fun line => hasSub line "-->" || hasSub line "---")).length
  let warnings1 := warnings0 ++
    (if node_count = 0 ∧ (diagram_type = "graph" ∨ diagram_type = "flowchart") then
      ["No connections found (-->  or ---) - diagram might be empty"] else [])
  let open_brackets := countChar mermaid_code '[' + countChar mermaid_code '('
    + countChar mermaid_code (Char.ofNat 123)
  let close_brackets := countChar mermaid_code ']' + countChar mermaid_code ')'
    + countChar mermaid_code (Char.ofNat 125)
  let errors1 := errors0 ++
    (if open_brackets ≠ close_brackets then
      ["Mismatched brackets: " ++ toString open_brackets ++ " open, "
        ++ toString close_brackets ++ " closed"] else [])
  let valid := errors1.length = 0
  { valid := valid,
    diagram_type := some (if diagram_type = "" then "unknown" else diagram_type),
    node_count := some node_count,
    line_count := some lines.length,
    errors := if errors1 ≠ [] then some errors1 else none,
    warnings := if warnings1 ≠ [] then some warnings1 else none,
    prompt := some (if valid then
        "✓ Mermaid syntax appears valid. Diagram type: " ++ diagram_type ++ ", "
          ++ toString node_count ++ " connections found."
      else
        "✗ Mermaid syntax errors detected: " ++ String.intercalate ", " errors1) }

/-- Base64 alphabet (RFC 4648, as used by `base64.b64encode`). -/
def b64alphabet : String :=
  "ABCDEFGHIJKLMNOPQRSTUVWXYZabcdefghijklmnopqrstuvwxyz0123456789+/"

/-- The base64 digit for a 6-bit value. -/
def b64digit (n : Nat) : Char :=
  (b64alphabet.toList).getD n 'A'

/-- `base64.b64encode(bytes).decode('utf-8')`, bytes as `Nat`s below 256. -/
def b64encode : List Nat → String
  | [] => ""
  | [a] =>
      String.mk [b64digit (a / 4), b64digit (a % 4 * 16)] ++ "=="
  | [a, b] =>
      String.mk [b64digit (a / 4), b64digit (a % 4 * 16 + b / 16),
        b64digit (b % 16 * 4)] ++ "="
  | a :: b :: c :: rest =>
      String.mk [b64digit (a / 4), b64digit (a % 4 * 16 + b / 16),
        b64digit (b % 16 * 4 + c / 64), b64digit (c % 64)] ++ b64encode rest

/-- Filesystem oracle for `diagram_resources.py`: existence and read outcome per
absolute path (a raised read is `Except.error`). -/
structure FsWorld where
  fileExists : String → Bool
  readFile : String → Except String (List Nat)

/-- `pathlib`'s `dir / name`: an absolute `name` replaces the base path. -/
def pathJoin (dir name : String) : String :=
  if pyStartsWith name "/" then name else dir ++ "/" ++ name

/-- `get_diagram_resource` from `diagram_resources.py`.  The whole body sits in
one `try/except Exception`, so every failure becomes an error string; a missing
file short-circuits to the not-found string before any read. -/
def get_diagram_resource (w : FsWorld) (diagram_name : String) : String :=
  let diagram_path := pathJoin "/app/data/diagrams" diagram_name
  if ¬ w.fileExists diagram_path then
    "Error: Diagram '" ++ diagram_name ++ "' not found"
  else
    match w.readFile diagram_path with
    | Except.error e => "Error loading diagram: " ++ e
    | Except.ok image_data => b64encode image_data

/-! Helper lemmas on the tracker. -/

theorem Tracker.get_set (t : Tracker) (k : String) (v : Nat) :
    Tracker.get (Tracker.set t k v) k = v := by
  simp [Tracker.set, Tracker.get]

theorem Tracker.get_pop (t : Tracker) (k : String) :
    Tracker.get (Tracker.pop t k) k = 0 := by
  induction t with
  | nil => rfl
  | cons p t ih =>
      by_cases h : p.1 = k <;> simp [Tracker.pop, Tracker.get, h, ih]

theorem Tracker.get?_pop (t : Tracker) (k : String) :
    Tracker.get? (Tracker.pop t k) k = none := by
  induction t with
  | nil => rfl
  | cons p t ih =>
      by_cases h : p.1 = k <;> simp [Tracker.pop, Tracker.get?, h, ih]

/-- One failing render call (exit code non-zero, valid request): under budget it
reports attempt `k + 1` and bumps the ledger entry to `k + 1`; at or over budget
it reports the budget-exhausted failure and deletes the entry. -/
theorem genFail_step (md5hex12 : String → String) (cfg : MermaidConfig)
    (env : Env) (code fmt fn th bg : String) (s wd : Int)
    (gs : Except String Nat) (tn : Nat) (rr : Bool) (rc : Int) (so se : String)
    (h1 : pyStrip code ≠ "") (h2 : ¬ code.length > cfg.max_diagram_size)
    (h3 : (if fmt = "" then cfg.default_format else fmt) = "png"
      ∨ (if fmt = "" then cfg.default_format else fmt) = "svg"
      ∨ (if fmt = "" then cfg.default_format else fmt) = "pdf")
    (hrc : rc ≠ 0) (tr : Tracker) :
    (¬ env.mermaid_max_retries.getD cfg.max_retry_attempts
        ≤ Tracker.get tr (md5hex12 code) →
      (genStep md5hex12 cfg env (completedWorld rc so se gs tn rr)
          code fmt fn th bg s wd tr).respD.attempt
        = some (Tracker.get tr (md5hex12 code) + 1)
      ∧ (genStep md5hex12 cfg env (completedWorld rc so se gs tn rr)
          code fmt fn th bg s wd tr).respD.success = false
      ∧ (genStep md5hex12 cfg env (completedWorld rc so se gs tn rr)
          code fmt fn th bg s wd tr).tracker
        = Tracker.set tr (md5hex12 code) (Tracker.get tr (md5hex12 code) + 1))
    ∧ (env.mermaid_max_retries.getD cfg.max_retry_attempts
        ≤ Tracker.get tr (md5hex12 code) →
      (genStep md5hex12 cfg env (completedWorld rc so se gs tn rr)
          code fmt fn th bg s wd tr).respD.error
        = some ("Maximum retry attempts ("
            ++ toString (env.mermaid_max_retries.getD cfg.max_retry_attempts)
            ++ ") reached")
      ∧ (genStep md5hex12 cfg env (completedWorld rc so se gs tn rr)
          code fmt fn th bg s wd tr).respD.success = false
      ∧ (genStep md5hex12 cfg env (completedWorld rc so se gs tn rr)
          code fmt fn th bg s wd tr).respD.attempts
        = some (Tracker.get tr (md5hex12 code))
      ∧ (genStep md5hex12 cfg env (completedWorld rc so se gs tn rr)
          code fmt fn th bg s wd tr).tracker
        = Tracker.pop tr (md5hex12 code)) := by
  constructor
  · intro h4
    have h4e := eq_false h4
    simp [genStep, completedWorld, generate_mermaid_diagram, h1, h2, h3, h4e, hrc,
      Tracker.get_set, GenResult.respD, Except.toOption]
  · intro h4
    have h4e := eq_true h4
    simp [genStep, completedWorld, generate_mermaid_diagram, h1, h2, h3, h4e,
      GenResult.respD, Except.toOption]

/-- One successful render call (exit code zero, stat succeeds, valid request,
under budget): the response is a success and the fingerprint's ledger entry is
removed. -/
theorem genSuccess_step (md5hex12 : String → String) (cfg : MermaidConfig)
    (env : Env) (code fmt fn th bg : String) (s wd : Int)
    (sz tn : Nat) (rr : Bool) (so se : String)
    (h1 : pyStrip code ≠ "") (h2 : ¬ code.length > cfg.max_diagram_size)
    (h3 : (if fmt = "" then cfg.default_format else fmt) = "png"
      ∨ (if fmt = "" then cfg.default_format else fmt) = "svg"
      ∨ (if fmt = "" then cfg.default_format else fmt) = "pdf")
    (tr : Tracker)
    (h4 : ¬ env.mermaid_max_retries.getD cfg.max_retry_attempts
        ≤ Tracker.get tr (md5hex12 code)) :
    (genStep md5hex12 cfg env (completedWorld 0 so se (Except.ok sz) tn rr)
        code fmt fn th bg s wd tr).respD.success = true
    ∧ (genStep md5hex12 cfg env (completedWorld 0 so se (Except.ok sz) tn rr)
        code fmt fn th bg s wd tr).tracker
      = Tracker.pop (Tracker.set tr (md5hex12 code)
          (Tracker.get tr (md5hex12 code) + 1)) (md5hex12 code) := by
  have h4e := eq_false h4
  simp [genStep, completedWorld, generate_mermaid_diagram, h1, h2, h3, h4e,
    GenResult.respD, Except.toOption]

/-- Ledger contents after `j` consecutive failing calls for the same source
with `MERMAID_MAX_RETRIES = N`: the fingerprint's count is exactly `j`, for
every `j ≤ N`. -/
theorem iterT_failing_get (md5hex12 : String → String) (cfg : MermaidConfig)
    (od pb au : Option String) (code fmt fn th bg : String) (s wd : Int)
    (gs : Except String Nat) (tn : Nat) (rr : Bool) (rc : Int) (so se : String)
    (N : Nat)
    (h1 : pyStrip code ≠ "") (h2 : ¬ code.length > cfg.max_diagram_size)
    (h3 : (if fmt = "" then cfg.default_format else fmt) = "png"
      ∨ (if fmt = "" then cfg.default_format else fmt) = "svg"
      ∨ (if fmt = "" then cfg.default_format else fmt) = "pdf")
    (hrc : rc ≠ 0) :
    ∀ j, j ≤ N →
      Tracker.get (iterT (genStep md5hex12 cfg (envWithMax N od pb au)
          (completedWorld rc so se gs tn rr) code fmt fn th bg s wd) j)
        (md5hex12 code) = j := by
  intro j
  induction j with
  | zero => intro _; rfl
  | succ j ih =>
      intro hj
      have hjN : j ≤ N := Nat.le_of_succ_le hj
      have hget := ih hjN
      have hlt : ¬ (envWithMax N od pb au).mermaid_max_retries.getD
          cfg.max_retry_attempts
          ≤ Tracker.get (iterT (genStep md5hex12 cfg (envWithMax N od pb au)
              (completedWorld rc so se gs tn rr) code fmt fn th bg s wd) j)
            (md5hex12 code) := by
        rw [hget]
        simp only [envWithMax, Option.getD_some]
        omega
      have hstep := (genFail_step md5hex12 cfg (envWithMax N od pb au)
        code fmt fn th bg s wd gs tn rr rc so se h1 h2 h3 hrc
        (iterT (genStep md5hex12 cfg (envWithMax N od pb au)
          (completedWorld rc so se gs tn rr) code fmt fn th bg s wd) j)).1 hlt
      simp only [iterT]
      rw [hstep.2.2, Tracker.get_set, hget]

/-- C10: for every diagram name whose file does not exist under the diagrams
directory, `get_diagram_resource` returns the plain string
`Error: Diagram '<name>' not found`; and no input makes it raise — the body is
total, and even a raising read is converted to an `Error loading diagram:`
string. -/
theorem get_diagram_resource_error_handling (w : FsWorld) (diagram_name : String) :
    (w.fileExists (pathJoin "/app/data/diagrams" diagram_name) = false →
      get_diagram_resource w diagram_name
        = "Error: Diagram '" ++ diagram_name ++ "' not found")
    ∧ (∀ e, w.fileExists (pathJoin "/app/data/diagrams" diagram_name) = true →
        w.readFile (pathJoin "/app/data/diagrams" diagram_name) = Except.error e →
        get_diagram_resource w diagram_name = "Error loading diagram: " ++ e) := by
  constructor
  · intro h
    simp [get_diagram_resource, h]
  · intro e hex hread
    simp [get_diagram_resource, hex, hread]

/-- C10 witness: a world with no files yields the literal not-found string. -/
theorem get_diagram_resource_error_handling_w :
    get_diagram_resource ⟨fun _ => false, fun _ => Except.ok []⟩ "x.png"
      = "Error: Diagram 'x.png' not found" :=
  (get_diagram_resource_error_handling ⟨fun _ => false, fun _ => Except.ok []⟩ "x.png").1 rfl

/-- C9 counterexample: on the empty source the early return of
`validate_mermaid_syntax` carries no `diagram_type`, `node_count` or
`line_count` key, refuting "for every input source text ... a record containing
all of the fields". -/
theorem validate_empty_input_missing_fields :
    ( validate_mermaid_syntax "").diagram_type = none
    ∧ ( validate_mermaid_syntax "").node_count = none
    ∧ ( validate_mermaid_syntax "").line_count = none
    ∧ ( validate_mermaid_syntax "").valid = false := by
  decide

/-- C9 amended: for every source with non-whitespace content the result of
`validate_mermaid_syntax` carries `valid`, `diagram_type`, `node_count` and
`line_count` (the empty/whitespace early return carries only `valid`, `errors`,
`suggestion`); and for every input, `valid` is `true` exactly when the errors
list (empty when the key is absent) is empty — warnings never affect
validity. -/
theorem validate_fields_and_validity (code : String) :
    (pyStrip code ≠ "" →
      ( validate_mermaid_syntax code).diagram_type.isSome = true
      ∧ ( validate_mermaid_syntax code).node_count.isSome = true
      ∧ ( validate_mermaid_syntax code).line_count.isSome = true)
    ∧ (( validate_mermaid_syntax code).valid = true
        ↔ (( validate_mermaid_syntax code).errors.getD []) = []) := by
  by_cases h : pyStrip code = ""
  · refine ⟨fun hc => absurd h hc, ?_⟩
    simp [ validate_mermaid_syntax, h]
  · refine ⟨fun _ => ?_, ?_⟩
    · simp [ validate_mermaid_syntax, h]
    · simp only [ validate_mermaid_syntax, h, if_false, eq_self_iff_true]
      by_cases hd : detect_diagram_type code = "" <;>
        by_cases hb : countChar code '[' + countChar code '(' + countChar code (Char.ofNat 123)
            = countChar code ']' + countChar code ')' + countChar code (Char.ofNat 125) <;>
        simp_all

/-- C9 amended witness: a concrete non-empty source gets all four fields and
`valid` agrees with emptiness of the errors list. -/
theorem validate_fields_and_validity_w :
    (( validate_mermaid_syntax "graph TD; A[Start] --> B(End)").diagram_type.isSome = true
      ∧ ( validate_mermaid_syntax "graph TD; A[Start] --> B(End)").node_count.isSome = true
      ∧ ( validate_mermaid_syntax "graph TD; A[Start] --> B(End)").line_count.isSome = true)
    ∧ (( validate_mermaid_syntax "graph TD; A[Start] --> B(End)").valid = true
        ↔ (( validate_mermaid_syntax "graph TD; A[Start] --> B(End)").errors.getD []) = []) :=
  ⟨(validate_fields_and_validity "graph TD; A[Start] --> B(End)").1 (by decide),
   (validate_fields_and_validity "graph TD; A[Start] --> B(End)").2⟩

/-- C8: an out-of-enum scale is silently replaced by 2 and, independently, an
out-of-range width by 1600 — each substitution alone makes the whole call
behave exactly as if the default had been passed, with no failure; whereas an
effective output format outside png/svg/pdf makes the whole (otherwise valid)
request fail with a ValidationFailure that leaves the ledger untouched,
whatever the scale and width. -/
theorem scale_width_coerced_bad_format_fails (md5hex12 : String → String)
    (cfg : MermaidConfig) (env : Env) (w : World) (t : Tracker)
    (code fmtA fmtC fn th bg : String) (s wd : Int) :
    (¬ (s = 1 ∨ s = 2 ∨ s = 3) →
      generate_mermaid_diagram md5hex12 cfg env w t code fmtA fn th bg s wd
        = generate_mermaid_diagram md5hex12 cfg env w t code fmtA fn th bg 2 wd)
    ∧ (¬ (800 ≤ wd ∧ wd ≤ 3200) →
      generate_mermaid_diagram md5hex12 cfg env w t code fmtA fn th bg s wd
        = generate_mermaid_diagram md5hex12 cfg env w t code fmtA fn th bg s 1600)
    ∧ (pyStrip code ≠ "" → ¬ code.length > cfg.max_diagram_size →
      ¬ ((if fmtC = "" then cfg.default_format else fmtC) = "png"
        ∨ (if fmtC = "" then cfg.default_format else fmtC) = "svg"
        ∨ (if fmtC = "" then cfg.default_format else fmtC) = "pdf") →
      (generate_mermaid_diagram md5hex12 cfg env w t code fmtC fn th bg s wd).resp
        = Except.ok
            { success := false,
              error := some ("Invalid output_format: "
                ++ (if fmtC = "" then cfg.default_format else fmtC)),
              suggestion := some "Use 'png', 'svg', or 'pdf'" }
      ∧ (generate_mermaid_diagram md5hex12 cfg env w t code fmtC fn th bg s wd).tracker
        = t) := by
  refine ⟨?_, ?_, ?_⟩
  · intro hs
    simp only [generate_mermaid_diagram, hs]
    norm_num
  · intro hw
    simp only [generate_mermaid_diagram, hw]
    norm_num
  · intro hcv hcl hf1
    constructor
    · simp [generate_mermaid_diagram, hcv, hcl, hf1]
    · simp [generate_mermaid_diagram, hcv, hcl, hf1]

/-- C8 witness: scale 9 with an in-range width behaves as scale 2; width 100
with an in-enum scale behaves as width 1600; format `bmp` is rejected with the
literal ValidationFailure and an unchanged ledger even with scale 9 and
width 100. -/
theorem scale_width_coerced_bad_format_fails_w :
    (generate_mermaid_diagram (fun _ => "h") {} {} {} [] "graph TD" "png" "" "" "" 9 1600
      = generate_mermaid_diagram (fun _ => "h") {} {} {} [] "graph TD" "png" "" "" "" 2 1600)
    ∧ (generate_mermaid_diagram (fun _ => "h") {} {} {} [] "graph TD" "png" "" "" "" 2 100
      = generate_mermaid_diagram (fun _ => "h") {} {} {} [] "graph TD" "png" "" "" "" 2 1600)
    ∧ ((generate_mermaid_diagram (fun _ => "h") {} {} {} [] "graph TD" "bmp" "" "" "" 9 100).resp
        = Except.ok
            { success := false,
              error := some ("Invalid output_format: " ++ "bmp"),
              suggestion := some "Use 'png', 'svg', or 'pdf'" }
      ∧ (generate_mermaid_diagram (fun _ => "h") {} {} {} [] "graph TD" "bmp" "" "" "" 9 100).tracker
        = []) :=
  ⟨(scale_width_coerced_bad_format_fails (fun _ => "h") {} {} {} [] "graph TD" "png" "bmp"
      "" "" "" 9 1600).1 (by decide),
   (scale_width_coerced_bad_format_fails (fun _ => "h") {} {} {} [] "graph TD" "png" "bmp"
      "" "" "" 2 100).2.1 (by decide),
   (scale_width_coerced_bad_format_fails (fun _ => "h") {} {} {} [] "graph TD" "png" "bmp"
      "" "" "" 9 100).2.2 (by decide) (by decide) (by decide)⟩

/-- C5: a request that fails validation — empty or whitespace-only source,
oversized source, or unrecognized effective output format — returns a
ValidationFailure (success false, with error and suggestion but no attempt
bookkeeping fields) and leaves the attempt ledger exactly as it was. -/
theorem validation_failure_leaves_ledger (md5hex12 : String → String)
    (cfg : MermaidConfig) (env : Env) (w : World) (t : Tracker)
    (code fmt fn th bg : String) (s wd : Int)
    (h : pyStrip code = "" ∨ code.length > cfg.max_diagram_size
      ∨ ¬ ((if fmt = "" then cfg.default_format else fmt) = "png"
        ∨ (if fmt = "" then cfg.default_format else fmt) = "svg"
        ∨ (if fmt = "" then cfg.default_format else fmt) = "pdf")) :
    (generate_mermaid_diagram md5hex12 cfg env w t code fmt fn th bg s wd).tracker = t
    ∧ (generate_mermaid_diagram md5hex12 cfg env w t code fmt fn th bg s wd).respD.success
        = false
    ∧ (generate_mermaid_diagram md5hex12 cfg env w t code fmt fn th bg s wd).respD.error.isSome
        = true
    ∧ (generate_mermaid_diagram md5hex12 cfg env w t code fmt fn th bg s wd).respD.suggestion.isSome
        = true
    ∧ (generate_mermaid_diagram md5hex12 cfg env w t code fmt fn th bg s wd).respD.attempt
        = none
    ∧ (generate_mermaid_diagram md5hex12 cfg env w t code fmt fn th bg s wd).respD.attempts
        = none := by
  by_cases h1 : pyStrip code = ""
  · simp [generate_mermaid_diagram, h1, GenResult.respD, Except.toOption, Option.getD]
  · by_cases h2 : code.length > cfg.max_diagram_size
    · simp [generate_mermaid_diagram, h1, h2, GenResult.respD, Except.toOption, Option.getD]
    · have h3 := (h.resolve_left h1).resolve_left h2
      simp [generate_mermaid_diagram, h1, h2, h3, GenResult.respD, Except.toOption, Option.getD]

/-- C5 witness: the whitespace-only source leaves the concrete one-entry ledger
unchanged and yields a ValidationFailure without attempt fields. -/
theorem validation_failure_leaves_ledger_w :
    (generate_mermaid_diagram (fun _ => "h") {} {} {} [("h", 2)] "  \n " "svg" "" "" "" 2 1600).tracker
      = [("h", 2)]
    ∧ (generate_mermaid_diagram (fun _ => "h") {} {} {} [("h", 2)] "  \n " "svg" "" "" "" 2 1600).respD.success
        = false
    ∧ (generate_mermaid_diagram (fun _ => "h") {} {} {} [("h", 2)] "  \n " "svg" "" "" "" 2 1600).respD.error.isSome
        = true
    ∧ (generate_mermaid_diagram (fun _ => "h") {} {} {} [("h", 2)] "  \n " "svg" "" "" "" 2 1600).respD.suggestion.isSome
        = true
    ∧ (generate_mermaid_diagram (fun _ => "h") {} {} {} [("h", 2)] "  \n " "svg" "" "" "" 2 1600).respD.attempt
        = none
    ∧ (generate_mermaid_diagram (fun _ => "h") {} {} {} [("h", 2)] "  \n " "svg" "" "" "" 2 1600).respD.attempts
        = none :=
  validation_failure_leaves_ledger (fun _ => "h") {} {} {} [("h", 2)] "  \n " "svg"
    "" "" "" 2 1600 (Or.inl (by decide))

/-- C3 counterexample: `Path(output_dir).mkdir(parents=True, exist_ok=True)`
sits outside every `try` block, so an output-directory-creation failure on an
otherwise valid request escapes `generate_mermaid_diagram` as an unhandled
exception instead of a structured response. -/
theorem mkdir_failure_propagates :
    (generate_mermaid_diagram (fun _ => "h") {} {}
      { mkdirResult := some "PermissionError: [Errno 13] Permission denied" }
      [] "graph TD" "svg" "" "" "" 2 1600).resp
      = Except.error "PermissionError: [Errno 13] Permission denied" := by
  decide

/-- C3 amended: once the output directory has been created successfully (and, on
the success path, the output-file stat does not raise), every other failure of
the invocation — scratch-file write, subprocess spawn, timeout, renderer
rejection — is caught and converted into a structured response; directory
creation is outside the guarded region, and a stat failure after a successful
render escapes as a `KeyError` because the handler re-reads the already-popped
ledger entry. -/
theorem no_unhandled_fault_after_mkdir (md5hex12 : String → String)
    (cfg : MermaidConfig) (env : Env) (t : Tracker) (code fmt fn th bg : String)
    (s wd : Int) (ws : Option String) (sub : SubprocOutcome) (tn sz : Nat)
    (rr : Bool) :
    (generate_mermaid_diagram md5hex12 cfg env
      { mkdirResult := none, writeScratchResult := ws, subproc := sub,
        getsizeResult := Except.ok sz, time_now := tn, removeRaises := rr }
      t code fmt fn th bg s wd).resp.isOk = true := by
  by_cases h1 : pyStrip code = ""
  · simp [generate_mermaid_diagram, h1, Except.isOk, Except.toBool]
  · by_cases h2 : code.length > cfg.max_diagram_size
    · simp [generate_mermaid_diagram, h1, h2, Except.isOk, Except.toBool]
    · by_cases h3 : ((if fmt = "" then cfg.default_format else fmt) = "png"
        ∨ (if fmt = "" then cfg.default_format else fmt) = "svg"
        ∨ (if fmt = "" then cfg.default_format else fmt) = "pdf")
      · by_cases h4 : Tracker.get t (md5hex12 code)
            ≥ env.mermaid_max_retries.getD cfg.max_retry_attempts
        · simp [generate_mermaid_diagram, h1, h2, h3, h4, Except.isOk, Except.toBool]
        · cases ws with
          | some e => simp [generate_mermaid_diagram, h1, h2, h3, h4, Except.isOk, Except.toBool]
          | none =>
              cases sub with
              | completed rc so se =>
                  by_cases hrc : rc ≠ 0 <;>
                    simp [generate_mermaid_diagram, h1, h2, h3, h4, hrc, Except.isOk, Except.toBool]
              | timedOut => simp [generate_mermaid_diagram, h1, h2, h3, h4, Except.isOk, Except.toBool]
              | raised e => simp [generate_mermaid_diagram, h1, h2, h3, h4, Except.isOk, Except.toBool]
      · simp [generate_mermaid_diagram, h1, h2, h3, Except.isOk, Except.toBool]

/-- C1 counterexample: on a timeout the `except subprocess.TimeoutExpired`
handler returns without ever reaching `os.remove(input_file)` — the scratch
file was written, no deletion is attempted, and the file is still present after
the Timeout outcome is returned, refuting "deleted on every exit path" and "the
scratch file absent after a Timeout". -/
theorem scratch_file_leaks_on_timeout :
    (generate_mermaid_diagram (fun _ => "h") {} {}
      { subproc := SubprocOutcome.timedOut } [] "graph TD" "svg" "" "" "" 2 1600).scratchWritten
      = true
    ∧ (generate_mermaid_diagram (fun _ => "h") {} {}
        { subproc := SubprocOutcome.timedOut } [] "graph TD" "svg" "" "" "" 2 1600).scratchRemoveAttempted
      = false
    ∧ (generate_mermaid_diagram (fun _ => "h") {} {}
        { subproc := SubprocOutcome.timedOut } [] "graph TD" "svg" "" "" "" 2 1600).scratchStillExists
      = true
    ∧ (generate_mermaid_diagram (fun _ => "h") {} {}
        { subproc := SubprocOutcome.timedOut } [] "graph TD" "svg" "" "" "" 2 1600).respD.error
      = some "Diagram generation timed out (30s limit)" := by
  decide

/-- C1 amended: the scratch input file is deleted (best-effort, a deletion
failure is swallowed and does not change the returned response) on the exit
paths where `subprocess.run` returns — renderer success and renderer failure —
but on the timeout and unexpected-exception paths no deletion is attempted and
the written scratch file remains. -/
theorem scratch_cleanup_on_completed_paths (md5hex12 : String → String)
    (cfg : MermaidConfig) (env : Env) (t : Tracker) (code fmt fn th bg : String)
    (s wd : Int) (mk ws : Option String) (gs : Except String Nat) (tn : Nat)
    (rc : Int) (so se : String) (rr : Bool) :
    ((generate_mermaid_diagram md5hex12 cfg env
        { mkdirResult := mk, writeScratchResult := ws,
          subproc := SubprocOutcome.completed rc so se, getsizeResult := gs,
          time_now := tn, removeRaises := rr }
        t code fmt fn th bg s wd).scratchWritten = true →
      (generate_mermaid_diagram md5hex12 cfg env
        { mkdirResult := mk, writeScratchResult := ws,
          subproc := SubprocOutcome.completed rc so se, getsizeResult := gs,
          time_now := tn, removeRaises := rr }
        t code fmt fn th bg s wd).scratchRemoveAttempted = true)
    ∧ (generate_mermaid_diagram md5hex12 cfg env
        { mkdirResult := mk, writeScratchResult := ws,
          subproc := SubprocOutcome.completed rc so se, getsizeResult := gs,
          time_now := tn, removeRaises := true }
        t code fmt fn th bg s wd).resp
      = (generate_mermaid_diagram md5hex12 cfg env
          { mkdirResult := mk, writeScratchResult := ws,
            subproc := SubprocOutcome.completed rc so se, getsizeResult := gs,
            time_now := tn, removeRaises := false }
          t code fmt fn th bg s wd).resp
    ∧ ((generate_mermaid_diagram md5hex12 cfg env
          { mkdirResult := mk, writeScratchResult := ws,
            subproc := SubprocOutcome.timedOut, getsizeResult := gs,
            time_now := tn, removeRaises := rr }
          t code fmt fn th bg s wd).scratchWritten = true →
        (generate_mermaid_diagram md5hex12 cfg env
          { mkdirResult := mk, writeScratchResult := ws,
            subproc := SubprocOutcome.timedOut, getsizeResult := gs,
            time_now := tn, removeRaises := rr }
          t code fmt fn th bg s wd).scratchRemoveAttempted = false
        ∧ (generate_mermaid_diagram md5hex12 cfg env
            { mkdirResult := mk, writeScratchResult := ws,
              subproc := SubprocOutcome.timedOut, getsizeResult := gs,
              time_now := tn, removeRaises := rr }
            t code fmt fn th bg s wd).scratchStillExists = true)
    ∧ ((generate_mermaid_diagram md5hex12 cfg env
          { mkdirResult := mk, writeScratchResult := ws,
            subproc := SubprocOutcome.raised "boom", getsizeResult := gs,
            time_now := tn, removeRaises := rr }
          t code fmt fn th bg s wd).scratchWritten = true →
        (generate_mermaid_diagram md5hex12 cfg env
          { mkdirResult := mk, writeScratchResult := ws,
            subproc := SubprocOutcome.raised "boom", getsizeResult := gs,
            time_now := tn, removeRaises := rr }
          t code fmt fn th bg s wd).scratchRemoveAttempted = false) := by
  by_cases h1 : pyStrip code = ""
  · simp [generate_mermaid_diagram, h1]
  · by_cases h2 : code.length > cfg.max_diagram_size
    · simp [generate_mermaid_diagram, h1, h2]
    · by_cases h3 : ((if fmt = "" then cfg.default_format else fmt) = "png"
        ∨ (if fmt = "" then cfg.default_format else fmt) = "svg"
        ∨ (if fmt = "" then cfg.default_format else fmt) = "pdf")
      · by_cases h4 : Tracker.get t (md5hex12 code)
            ≥ env.mermaid_max_retries.getD cfg.max_retry_attempts
        · simp [generate_mermaid_diagram, h1, h2, h3, h4]
        · cases mk with
          | some e => simp [generate_mermaid_diagram, h1, h2, h3, h4]
          | none =>
              cases ws with
              | some e => simp [generate_mermaid_diagram, h1, h2, h3, h4]
              | none =>
                  by_cases hrc : rc ≠ 0
                  · simp [generate_mermaid_diagram, h1, h2, h3, h4, hrc]
                  · cases gs <;>
                      simp [generate_mermaid_diagram, h1, h2, h3, h4, hrc]
      · simp [generate_mermaid_diagram, h1, h2, h3]

/-- C1 amended witness: for a concrete failing render the deletion is
attempted, and for a concrete timeout it is not and the scratch file remains. -/
theorem scratch_cleanup_on_completed_paths_w :
    (generate_mermaid_diagram (fun _ => "h") {} {}
      { subproc := SubprocOutcome.completed 1 "" "e" }
      [] "graph TD" "svg" "" "" "" 2 1600).scratchRemoveAttempted = true
    ∧ (generate_mermaid_diagram (fun _ => "h") {} {}
        { subproc := SubprocOutcome.timedOut }
        [] "graph TD" "svg" "" "" "" 2 1600).scratchRemoveAttempted = false
    ∧ (generate_mermaid_diagram (fun _ => "h") {} {}
        { subproc := SubprocOutcome.timedOut }
        [] "graph TD" "svg" "" "" "" 2 1600).scratchStillExists = true :=
  ⟨(scratch_cleanup_on_completed_paths (fun _ => "h") {} {} [] "graph TD" "svg" "" "" ""
      2 1600 none none (Except.ok 0) 0 1 "" "e" false).1 (by decide),
   ((scratch_cleanup_on_completed_paths (fun _ => "h") {} {} [] "graph TD" "svg" "" "" ""
      2 1600 none none (Except.ok 0) 0 1 "" "e" false).2.2.1 (by decide)).1,
   ((scratch_cleanup_on_completed_paths (fun _ => "h") {} {} [] "graph TD" "svg" "" "" ""
      2 1600 none none (Except.ok 0) 0 1 "" "e" false).2.2.1 (by decide)).2⟩

/-- C4 counterexample: a renderer invocation that exits with code 0 while
producing a captured error stream is treated as a success, refuting "non-zero
exit code **or** captured error stream ⇒ RenderFailure". -/
theorem zero_exit_with_stderr_is_success :
    (generate_mermaid_diagram (fun _ => "h") {} {}
      { subproc := SubprocOutcome.completed 0 "" "DeprecationWarning: foo",
        getsizeResult := Except.ok 7 }
      [] "graph TD" "svg" "" "" "" 2 1600).respD.success = true := by
  decide

/-- C4 amended: a renderer subprocess that exits with a **non-zero** exit code
yields a RenderFailure response carrying the raw error message (stderr, else
stdout, else "Unknown error"), the attempt number, the maximum attempt count, a
classified suggestion and a prompt; the captured error stream alone (exit code
zero) does not trigger a failure, it only feeds the message. -/
theorem nonzero_exit_render_failure_fields (md5hex12 : String → String)
    (cfg : MermaidConfig) (env : Env) (t : Tracker) (code fmt fn th bg : String)
    (s wd : Int) (gs : Except String Nat) (tn : Nat) (rr : Bool)
    (rc : Int) (so se : String)
    (h1 : pyStrip code ≠ "") (h2 : ¬ code.length > cfg.max_diagram_size)
    (h3 : (if fmt = "" then cfg.default_format else fmt) = "png"
      ∨ (if fmt = "" then cfg.default_format else fmt) = "svg"
      ∨ (if fmt = "" then cfg.default_format else fmt) = "pdf")
    (h4 : ¬ Tracker.get t (md5hex12 code)
      ≥ env.mermaid_max_retries.getD cfg.max_retry_attempts)
    (hrc : rc ≠ 0) :
    (generate_mermaid_diagram md5hex12 cfg env
      { mkdirResult := none, writeScratchResult := none,
        subproc := SubprocOutcome.completed rc so se, getsizeResult := gs,
        time_now := tn, removeRaises := rr }
      t code fmt fn th bg s wd).resp
    = Except.ok
        { success := false,
          error := some (if se ≠ "" then se else if so ≠ "" then so else "Unknown error"),
          suggestion := some (parse_mermaid_error
            (if se ≠ "" then se else if so ≠ "" then so else "Unknown error")),
          attempt := some (Tracker.get t (md5hex12 code) + 1),
          max_attempts := some (env.mermaid_max_retries.getD cfg.max_retry_attempts),
          prompt := some ("Mermaid syntax error detected (attempt "
            ++ toString (Tracker.get t (md5hex12 code) + 1) ++ "/"
            ++ toString (env.mermaid_max_retries.getD cfg.max_retry_attempts)
            ++ "). Please fix the errors and try again.") } := by
  simp [generate_mermaid_diagram, h1, h2, h3, h4, hrc, Tracker.get_set]

/-- C4 amended witness: concrete non-zero exit with a stderr stream gives the
full RenderFailure record. -/
theorem nonzero_exit_render_failure_fields_w :
    (generate_mermaid_diagram (fun _ => "h") {} {}
      { subproc := SubprocOutcome.completed 1 "" "boom" }
      [] "graph TD" "svg" "" "" "" 2 1600).resp
    = Except.ok
        { success := false,
          error := some (if "boom" ≠ "" then "boom" else if "" ≠ "" then "" else "Unknown error"),
          suggestion := some (parse_mermaid_error
            (if "boom" ≠ "" then "boom" else if "" ≠ "" then "" else "Unknown error")),
          attempt := some (Tracker.get [] ((fun _ => "h") "graph TD") + 1),
          max_attempts := some ((none : Option Nat).getD
            ({} : MermaidConfig).max_retry_attempts),
          prompt := some ("Mermaid syntax error detected (attempt "
            ++ toString (Tracker.get [] ((fun _ => "h") "graph TD") + 1) ++ "/"
            ++ toString ((none : Option Nat).getD ({} : MermaidConfig).max_retry_attempts)
            ++ "). Please fix the errors and try again.") } :=
  nonzero_exit_render_failure_fields (fun _ => "h") {} {} [] "graph TD" "svg" "" "" ""
    2 1600 (Except.ok 0) 0 false 1 "" "boom" (by decide) (by decide) (by decide)
    (by decide) (by decide)

/-- C6 counterexample: the empty-source ValidationFailure response carries only
`success`, `error` and `suggestion` — no `attempt`, no `max_attempts`, no
`prompt` — refuting "every failure response contains ... attempt, and
max_attempts, plus a prompt field". -/
theorem validation_failure_lacks_prompt_fields :
    (generate_mermaid_diagram (fun _ => "h") {} {} {} [] "" "svg" "" "" "" 2 1600).respD.success
      = false
    ∧ (generate_mermaid_diagram (fun _ => "h") {} {} {} [] "" "svg" "" "" "" 2 1600).respD.error.isSome
      = true
    ∧ (generate_mermaid_diagram (fun _ => "h") {} {} {} [] "" "svg" "" "" "" 2 1600).respD.attempt
      = none
    ∧ (generate_mermaid_diagram (fun _ => "h") {} {} {} [] "" "svg" "" "" "" 2 1600).respD.max_attempts
      = none
    ∧ (generate_mermaid_diagram (fun _ => "h") {} {} {} [] "" "svg" "" "" "" 2 1600).respD.prompt
      = none := by
  decide

/-- C6 amended: whenever the call returns a structured response, a failure
response always carries `success = false` together with an `error` message, and
a success response always carries its one-line natural-language summary in the
`message` field (and no `prompt`); the remaining failure fields (`suggestion`,
`attempt`, `max_attempts`, `prompt`) are path-specific rather than universal. -/
theorem structured_response_core_fields (md5hex12 : String → String)
    (cfg : MermaidConfig) (env : Env) (w : World) (t : Tracker)
    (code fmt fn th bg : String) (s wd : Int) :
    ((generate_mermaid_diagram md5hex12 cfg env w t code fmt fn th bg s wd).resp.isOk = true →
      (generate_mermaid_diagram md5hex12 cfg env w t code fmt fn th bg s wd).respD.success = false →
      (generate_mermaid_diagram md5hex12 cfg env w t code fmt fn th bg s wd).respD.error.isSome = true)
    ∧ ((generate_mermaid_diagram md5hex12 cfg env w t code fmt fn th bg s wd).resp.isOk = true →
      (generate_mermaid_diagram md5hex12 cfg env w t code fmt fn th bg s wd).respD.success = true →
      (generate_mermaid_diagram md5hex12 cfg env w t code fmt fn th bg s wd).respD.message.isSome = true
      ∧ (generate_mermaid_diagram md5hex12 cfg env w t code fmt fn th bg s wd).respD.prompt = none) := by
  obtain ⟨mk, ws, sub, gs, tn, rr⟩ := w
  by_cases h1 : pyStrip code = ""
  · simp [generate_mermaid_diagram, h1, GenResult.respD, Except.toOption]
  · by_cases h2 : code.length > cfg.max_diagram_size
    · simp [generate_mermaid_diagram, h1, h2, GenResult.respD, Except.toOption]
    · by_cases h3 : ((if fmt = "" then cfg.default_format else fmt) = "png"
        ∨ (if fmt = "" then cfg.default_format else fmt) = "svg"
        ∨ (if fmt = "" then cfg.default_format else fmt) = "pdf")
      · by_cases h4 : env.mermaid_max_retries.getD cfg.max_retry_attempts
            ≤ Tracker.get t (md5hex12 code)
        · have h4e := eq_true h4
          simp [generate_mermaid_diagram, h1, h2, h3, h4e, GenResult.respD,
            Except.toOption]
        · have h4e := eq_false h4
          cases mk with
          | some e =>
              simp [generate_mermaid_diagram, h1, h2, h3, h4e, GenResult.respD,
                Except.toOption, Except.isOk, Except.toBool]
          | none =>
              cases ws with
              | some e =>
                  simp [generate_mermaid_diagram, h1, h2, h3, h4e, GenResult.respD,
                    Except.toOption]
              | none =>
                  cases sub with
                  | completed rc so se =>
                      by_cases hrc : rc ≠ 0
                      · simp [generate_mermaid_diagram, h1, h2, h3, h4e, hrc,
                          GenResult.respD, Except.toOption]
                      · cases gs <;>
                          simp [generate_mermaid_diagram, h1, h2, h3, h4e, hrc,
                            GenResult.respD, Except.toOption,
                            Except.isOk, Except.toBool]
                  | timedOut =>
                      simp [generate_mermaid_diagram, h1, h2, h3, h4e,
                        GenResult.respD, Except.toOption]
                  | raised e =>
                      simp [generate_mermaid_diagram, h1, h2, h3, h4e,
                        GenResult.respD, Except.toOption]
      · simp [generate_mermaid_diagram, h1, h2, h3, GenResult.respD,
          Except.toOption]

/-- C6 amended witness: a concrete renderer failure carries `error`, and a
concrete success carries the `message` summary with no `prompt`. -/
theorem structured_response_core_fields_w :
    (generate_mermaid_diagram (fun _ => "h") {} {}
      { subproc := SubprocOutcome.completed 1 "" "boom" }
      [] "graph TD" "svg" "" "" "" 2 1600).respD.error.isSome = true
    ∧ ((generate_mermaid_diagram (fun _ => "h") {} {}
        { subproc := SubprocOutcome.completed 0 "" "", getsizeResult := Except.ok 7 }
        [] "graph TD" "svg" "" "" "" 2 1600).respD.message.isSome = true
      ∧ (generate_mermaid_diagram (fun _ => "h") {} {}
          { subproc := SubprocOutcome.completed 0 "" "", getsizeResult := Except.ok 7 }
          [] "graph TD" "svg" "" "" "" 2 1600).respD.prompt = none) :=
  ⟨(structured_response_core_fields (fun _ => "h") {} {}
      { subproc := SubprocOutcome.completed 1 "" "boom" }
      [] "graph TD" "svg" "" "" "" 2 1600).1 (by decide) (by decide),
   (structured_response_core_fields (fun _ => "h") {} {}
      { subproc := SubprocOutcome.completed 0 "" "", getsizeResult := Except.ok 7 }
      [] "graph TD" "svg" "" "" "" 2 1600).2 (by decide) (by decide)⟩

/-- C2: with `max_attempts = N` (N ≥ 1), for an always-failing source the
`i`-th consecutive call (1 ≤ i ≤ N) reports attempt number `i`; the (N+1)-th
call returns the budget-exhausted failure (reporting the accumulated count and
success = false) and removes the ledger entry for the fingerprint; and the call
after that starts again at attempt number 1. -/
theorem retry_budget_cycle (md5hex12 : String → String) (cfg : MermaidConfig)
    (od pb au : Option String) (code fmt fn th bg : String) (s wd : Int)
    (gs : Except String Nat) (tn : Nat) (rr : Bool) (rc : Int) (so se : String)
    (N i : Nat) (hN : 0 < N)
    (h1 : pyStrip code ≠ "") (h2 : ¬ code.length > cfg.max_diagram_size)
    (h3 : (if fmt = "" then cfg.default_format else fmt) = "png"
      ∨ (if fmt = "" then cfg.default_format else fmt) = "svg"
      ∨ (if fmt = "" then cfg.default_format else fmt) = "pdf")
    (hrc : rc ≠ 0) (hi1 : 1 ≤ i) (hiN : i ≤ N) :
    (genStep md5hex12 cfg (envWithMax N od pb au) (completedWorld rc so se gs tn rr)
        code fmt fn th bg s wd
        (iterT (genStep md5hex12 cfg (envWithMax N od pb au)
          (completedWorld rc so se gs tn rr) code fmt fn th bg s wd)
          (i - 1))).respD.attempt = some i
    ∧ (genStep md5hex12 cfg (envWithMax N od pb au) (completedWorld rc so se gs tn rr)
        code fmt fn th bg s wd
        (iterT (genStep md5hex12 cfg (envWithMax N od pb au)
          (completedWorld rc so se gs tn rr) code fmt fn th bg s wd)
          N)).respD.error
      = some ("Maximum retry attempts (" ++ toString N ++ ") reached")
    ∧ (genStep md5hex12 cfg (envWithMax N od pb au) (completedWorld rc so se gs tn rr)
        code fmt fn th bg s wd
        (iterT (genStep md5hex12 cfg (envWithMax N od pb au)
          (completedWorld rc so se gs tn rr) code fmt fn th bg s wd)
          N)).respD.success = false
    ∧ Tracker.get? ((genStep md5hex12 cfg (envWithMax N od pb au)
        (completedWorld rc so se gs tn rr) code fmt fn th bg s wd
        (iterT (genStep md5hex12 cfg (envWithMax N od pb au)
          (completedWorld rc so se gs tn rr) code fmt fn th bg s wd)
          N)).tracker) (md5hex12 code) = none
    ∧ (genStep md5hex12 cfg (envWithMax N od pb au) (completedWorld rc so se gs tn rr)
        code fmt fn th bg s wd
        (iterT (genStep md5hex12 cfg (envWithMax N od pb au)
          (completedWorld rc so se gs tn rr) code fmt fn th bg s wd)
          (N + 1))).respD.attempt = some 1 := by
  have hgetj := iterT_failing_get md5hex12 cfg od pb au code fmt fn th bg s wd
    gs tn rr rc so se N h1 h2 h3 hrc
  -- the i-th call reports attempt i
  have hgI := hgetj (i - 1) (by omega)
  have hltI : ¬ (envWithMax N od pb au).mermaid_max_retries.getD
      cfg.max_retry_attempts
      ≤ Tracker.get (iterT (genStep md5hex12 cfg (envWithMax N od pb au)
          (completedWorld rc so se gs tn rr) code fmt fn th bg s wd) (i - 1))
        (md5hex12 code) := by
    rw [hgI]
    simp only [envWithMax, Option.getD_some]
    omega
  have sI := (genFail_step md5hex12 cfg (envWithMax N od pb au)
    code fmt fn th bg s wd gs tn rr rc so se h1 h2 h3 hrc
    (iterT (genStep md5hex12 cfg (envWithMax N od pb au)
      (completedWorld rc so se gs tn rr) code fmt fn th bg s wd) (i - 1))).1 hltI
  -- the (N+1)-th call exhausts the budget
  have hgN := hgetj N (Nat.le_refl N)
  have hgeN : (envWithMax N od pb au).mermaid_max_retries.getD
      cfg.max_retry_attempts
      ≤ Tracker.get (iterT (genStep md5hex12 cfg (envWithMax N od pb au)
          (completedWorld rc so se gs tn rr) code fmt fn th bg s wd) N)
        (md5hex12 code) := by
    rw [hgN]
    simp only [envWithMax, Option.getD_some]
    omega
  have sN := (genFail_step md5hex12 cfg (envWithMax N od pb au)
    code fmt fn th bg s wd gs tn rr rc so se h1 h2 h3 hrc
    (iterT (genStep md5hex12 cfg (envWithMax N od pb au)
      (completedWorld rc so se gs tn rr) code fmt fn th bg s wd) N)).2 hgeN
  -- the call after exhaustion starts over at attempt 1
  have htrN1 : iterT (genStep md5hex12 cfg (envWithMax N od pb au)
      (completedWorld rc so se gs tn rr) code fmt fn th bg s wd) (N + 1)
      = Tracker.pop (iterT (genStep md5hex12 cfg (envWithMax N od pb au)
          (completedWorld rc so se gs tn rr) code fmt fn th bg s wd) N)
        (md5hex12 code) := by
    simp only [iterT]
    exact sN.2.2.2
  have hg0 : Tracker.get (iterT (genStep md5hex12 cfg (envWithMax N od pb au)
      (completedWorld rc so se gs tn rr) code fmt fn th bg s wd) (N + 1))
      (md5hex12 code) = 0 := by
    rw [htrN1, Tracker.get_pop]
  have hlt0 : ¬ (envWithMax N od pb au).mermaid_max_retries.getD
      cfg.max_retry_attempts
      ≤ Tracker.get (iterT (genStep md5hex12 cfg (envWithMax N od pb au)
          (completedWorld rc so se gs tn rr) code fmt fn th bg s wd) (N + 1))
        (md5hex12 code) := by
    rw [hg0]
    simp only [envWithMax, Option.getD_some]
    omega
  have s0 := (genFail_step md5hex12 cfg (envWithMax N od pb au)
    code fmt fn th bg s wd gs tn rr rc so se h1 h2 h3 hrc
    (iterT (genStep md5hex12 cfg (envWithMax N od pb au)
      (completedWorld rc so se gs tn rr) code fmt fn th bg s wd) (N + 1))).1 hlt0
  refine ⟨?_, ?_, ?_, ?_, ?_⟩
  · rw [sI.1, hgI]
    congr 1
    omega
  · rw [sN.1]
    simp only [envWithMax, Option.getD_some]
  · exact sN.2.1
  · rw [sN.2.2.2]
    exact Tracker.get?_pop _ _
  · rw [s0.1, hg0]

/-- C2 witness: with `N = 2`, calls 1 and 2 report attempts 1 and 2, call 3 is
the budget-exhausted failure with the entry removed, and call 4 reports
attempt 1 again. -/
theorem retry_budget_cycle_w :
    (genStep (fun _ => "h") {} (envWithMax 2 none none none)
        (completedWorld 1 "" "boom" (Except.ok 0) 0 false)
        "graph TD" "svg" "" "" "" 2 1600
        (iterT (genStep (fun _ => "h") {} (envWithMax 2 none none none)
          (completedWorld 1 "" "boom" (Except.ok 0) 0 false)
          "graph TD" "svg" "" "" "" 2 1600) (1 - 1))).respD.attempt = some 1
    ∧ (genStep (fun _ => "h") {} (envWithMax 2 none none none)
        (completedWorld 1 "" "boom" (Except.ok 0) 0 false)
        "graph TD" "svg" "" "" "" 2 1600
        (iterT (genStep (fun _ => "h") {} (envWithMax 2 none none none)
          (completedWorld 1 "" "boom" (Except.ok 0) 0 false)
          "graph TD" "svg" "" "" "" 2 1600) 2)).respD.error
      = some ("Maximum retry attempts (" ++ toString 2 ++ ") reached")
    ∧ (genStep (fun _ => "h") {} (envWithMax 2 none none none)
        (completedWorld 1 "" "boom" (Except.ok 0) 0 false)
        "graph TD" "svg" "" "" "" 2 1600
        (iterT (genStep (fun _ => "h") {} (envWithMax 2 none none none)
          (completedWorld 1 "" "boom" (Except.ok 0) 0 false)
          "graph TD" "svg" "" "" "" 2 1600) 2)).respD.success = false
    ∧ Tracker.get? ((genStep (fun _ => "h") {} (envWithMax 2 none none none)
        (completedWorld 1 "" "boom" (Except.ok 0) 0 false)
        "graph TD" "svg" "" "" "" 2 1600
        (iterT (genStep (fun _ => "h") {} (envWithMax 2 none none none)
          (completedWorld 1 "" "boom" (Except.ok 0) 0 false)
          "graph TD" "svg" "" "" "" 2 1600) 2)).tracker) ((fun _ => "h") "graph TD")
      = none
    ∧ (genStep (fun _ => "h") {} (envWithMax 2 none none none)
        (completedWorld 1 "" "boom" (Except.ok 0) 0 false)
        "graph TD" "svg" "" "" "" 2 1600
        (iterT (genStep (fun _ => "h") {} (envWithMax 2 none none none)
          (completedWorld 1 "" "boom" (Except.ok 0) 0 false)
          "graph TD" "svg" "" "" "" 2 1600) (2 + 1))).respD.attempt = some 1 :=
  retry_budget_cycle (fun _ => "h") {} none none none "graph TD" "svg" "" "" ""
    2 1600 (Except.ok 0) 0 false 1 "" "boom" 2 1 (by decide) (by decide)
    (by decide) (by decide) (by decide) (by decide) (by decide)

/-- C7: a successful render removes the fingerprint's ledger entry (lookup
afterwards finds nothing), so a subsequent failing render attempt for the same
fingerprint reports attempt number 1 rather than continuing from the prior
count. -/
theorem success_resets_ledger (md5hex12 : String → String) (cfg : MermaidConfig)
    (env : Env) (t : Tracker) (code fmt fn th bg : String) (s wd : Int)
    (sz tn : Nat) (rr : Bool) (so se : String)
    (rc2 : Int) (so2 se2 : String) (gs2 : Except String Nat) (tn2 : Nat) (rr2 : Bool)
    (h1 : pyStrip code ≠ "") (h2 : ¬ code.length > cfg.max_diagram_size)
    (h3 : (if fmt = "" then cfg.default_format else fmt) = "png"
      ∨ (if fmt = "" then cfg.default_format else fmt) = "svg"
      ∨ (if fmt = "" then cfg.default_format else fmt) = "pdf")
    (h4 : ¬ env.mermaid_max_retries.getD cfg.max_retry_attempts
        ≤ Tracker.get t (md5hex12 code))
    (hrc2 : rc2 ≠ 0) :
    (genStep md5hex12 cfg env (completedWorld 0 so se (Except.ok sz) tn rr)
        code fmt fn th bg s wd t).respD.success = true
    ∧ Tracker.get? ((genStep md5hex12 cfg env
        (completedWorld 0 so se (Except.ok sz) tn rr)
        code fmt fn th bg s wd t).tracker) (md5hex12 code) = none
    ∧ (genStep md5hex12 cfg env (completedWorld rc2 so2 se2 gs2 tn2 rr2)
        code fmt fn th bg s wd
        ((genStep md5hex12 cfg env (completedWorld 0 so se (Except.ok sz) tn rr)
          code fmt fn th bg s wd t).tracker)).respD.attempt = some 1 := by
  have hsucc := genSuccess_step md5hex12 cfg env code fmt fn th bg s wd sz tn rr
    so se h1 h2 h3 t h4
  have hget0 : Tracker.get ((genStep md5hex12 cfg env
      (completedWorld 0 so se (Except.ok sz) tn rr)
      code fmt fn th bg s wd t).tracker) (md5hex12 code) = 0 := by
    rw [hsucc.2, Tracker.get_pop]
  have hlt : ¬ env.mermaid_max_retries.getD cfg.max_retry_attempts
      ≤ Tracker.get ((genStep md5hex12 cfg env
          (completedWorld 0 so se (Except.ok sz) tn rr)
          code fmt fn th bg s wd t).tracker) (md5hex12 code) := by
    rw [hget0]
    omega
  have hfail := (genFail_step md5hex12 cfg env code fmt fn th bg s wd gs2 tn2 rr2
    rc2 so2 se2 h1 h2 h3 hrc2
    ((genStep md5hex12 cfg env (completedWorld 0 so se (Except.ok sz) tn rr)
      code fmt fn th bg s wd t).tracker)).1 hlt
  refine ⟨hsucc.1, ?_, ?_⟩
  · rw [hsucc.2]
    exact Tracker.get?_pop _ _
  · rw [hfail.1, hget0]

/-- C7 witness: from a ledger already holding count 3 for the fingerprint, a
successful render empties the entry and the next failing render reports
attempt 1. -/
theorem success_resets_ledger_w :
    (genStep (fun _ => "h") {} {} (completedWorld 0 "" "" (Except.ok 9) 0 false)
        "graph TD" "svg" "" "" "" 2 1600 [("h", 3)]).respD.success = true
    ∧ Tracker.get? ((genStep (fun _ => "h") {} {}
        (completedWorld 0 "" "" (Except.ok 9) 0 false)
        "graph TD" "svg" "" "" "" 2 1600 [("h", 3)]).tracker) ((fun _ => "h") "graph TD")
      = none
    ∧ (genStep (fun _ => "h") {} {} (completedWorld 1 "" "boom" (Except.ok 0) 0 false)
        "graph TD" "svg" "" "" "" 2 1600
        ((genStep (fun _ => "h") {} {} (completedWorld 0 "" "" (Except.ok 9) 0 false)
          "graph TD" "svg" "" "" "" 2 1600 [("h", 3)]).tracker)).respD.attempt
      = some 1 :=
  success_resets_ledger (fun _ => "h") {} {} [("h", 3)] "graph TD" "svg" "" "" ""
    2 1600 9 0 false "" "" 1 "" "boom" (Except.ok 0) 0 false (by decide) (by decide)
    (by decide) (by decide) (by decide)

end MermaidMCP
